import Mathlib

/-!
Verification development for the corporate-debt-reporting repository.

The repository has two JavaScript entry points:
- script.mjs: the daily run. It resolves a target trading date, fetches NSE
  and BSE bond data, normalizes rows to one canonical record shape, replaces
  the stored records for (trade_date, exchange) by delete-then-insert, and
  finally deletes records older than 90 days.
- an unnamed backfill script (src/unnamed/part_000): iterates a fixed range
  of weekdays, fetches BSE data for each, stores it, and aborts the whole
  remaining queue on any hard error.

The definitions below are shallow embeddings of the functions of those files.
Network endpoints, the CSV-parsing library, the Supabase client and the
Telegram client are external collaborators; they appear as explicit inputs
(response transcripts, already-parsed row lists, abstract storage-call lists).
JavaScript numbers that can be NaN are modelled by the type JsNum; machine
floats are modelled by rationals, which is exact for every decimal literal
the claims mention. Calendar instants are modelled as milliseconds since the
Unix epoch (a Nat), and calendar days as day numbers since the epoch, which
matches the JavaScript Date arithmetic used by the source in a timezone
without daylight saving.
-/

/-- A JavaScript number that may be NaN (the result of parseFloat or parseInt
on a non-numeric string). Finite values are modelled as rationals. -/
inductive JsNum where
  | nan : JsNum
  | num : ℚ → JsNum
deriving DecidableEq, Repr

/-- Multiplication of a JsNum by a rational constant; NaN is absorbing,
as in JavaScript. -/
def JsNum.mulQ : JsNum → ℚ → JsNum
  | .nan, _ => .nan
  | .num q, k => .num (q * k)

/-- Value of a list of decimal digit characters, most significant first. -/
def digitsToNat (cs : List Char) : Nat :=
  cs.foldl (fun a c => a * 10 + (c.toNat - 48)) 0

/-- Model of JavaScript parseFloat for the inputs this pipeline produces:
an optional sign, an integer digit run, an optional decimal point and
fraction digit run; trailing characters are ignored (longest valid prefix),
and a prefix with no digit at all gives NaN. Exponent notation and leading
whitespace never occur in the trimmed CSV cells this code parses. -/
def jsParseFloat (s : String) : JsNum :=
  let p : Bool × List Char :=
    match s.data with
    | '-' :: rest => (true, rest)
    | '+' :: rest => (false, rest)
    | cs => (false, cs)
  let intDigits := p.2.takeWhile Char.isDigit
  let afterInt := p.2.dropWhile Char.isDigit
  let fracDigits :=
    match afterInt with
    | '.' :: r => r.takeWhile Char.isDigit
    | _ => []
  if intDigits.isEmpty ∧ fracDigits.isEmpty then .nan
  else
    let v : ℚ :=
      (digitsToNat intDigits : ℚ) + (digitsToNat fracDigits : ℚ) / (10 ^ fracDigits.length : ℚ)
    .num (if p.1 then -v else v)

/-- Model of JavaScript parseInt with radix 10 for the inputs this pipeline
produces: optional sign, then a digit run; no digits gives NaN. -/
def jsParseInt (s : String) : JsNum :=
  let p : Bool × List Char :=
    match s.data with
    | '-' :: rest => (true, rest)
    | '+' :: rest => (false, rest)
    | cs => (false, cs)
  let ds := p.2.takeWhile Char.isDigit
  if ds.isEmpty then .nan
  else .num (if p.1 then -(digitsToNat ds : ℚ) else (digitsToNat ds : ℚ))

/-- The replace of every comma by the empty string, as in
value.replace(/,/g, "") in the source. -/
def stripCommas (s : String) : String :=
  String.mk (s.data.filter (fun c => !(c == ',')))

/-- JavaScript truthiness of a possibly-absent string field: undefined and
the empty string are falsy, every other string is truthy. -/
def truthy : Option String → Bool
  | none => false
  | some s => !s.data.isEmpty

/-- The JavaScript fallback chain a || b || ... || null over string fields:
the first truthy operand, or null when none is truthy. -/
def firstTruthy : List (Option String) → Option String
  | [] => none
  | v :: rest => if truthy v then v else firstTruthy rest

/-- The characters JavaScript String.prototype.trim removes, including the
byte-order mark U+FEFF and the line and paragraph separators. -/
def jsIsWhitespace (c : Char) : Bool :=
  c == ' ' || c == '\t' || c == '\n' || c == '\r' ||
  c.toNat == 11 || c.toNat == 12 || c.toNat == 0xA0 ||
  c.toNat == 0xFEFF || c.toNat == 0x2028 || c.toNat == 0x2029

/-- Model of JavaScript String.prototype.trim. -/
def jsTrim (s : String) : String :=
  String.mk (((s.data.dropWhile jsIsWhitespace).reverse.dropWhile jsIsWhitespace).reverse)

/-- The byte-order-mark strip of parseCSV and storeBSEData: when the first
character has code 0xFEFF the string loses it, otherwise it is unchanged
(csvString.charCodeAt(0) === 0xFEFF followed by slice(1)). -/
def stripBOM (s : String) : String :=
  match s.data with
  | c :: rest => if c.toNat = 0xFEFF then String.mk rest else s
  | [] => s

/-- Whether pat occurs as a contiguous substring of the character list,
modelling JavaScript String.prototype.includes. -/
def isSubArr (pat : List Char) : List Char → Bool
  | [] => pat.isEmpty
  | c :: rest => pat.isPrefixOf (c :: rest) || isSubArr pat rest

/-- JavaScript body.includes(pat). -/
def strContains (body pat : String) : Bool :=
  isSubArr pat.data body.data

/-- JavaScript body.startsWith(pat). -/
def strStartsWith (body pat : String) : Bool :=
  pat.data.isPrefixOf body.data

/-! ## DateResolver: getTargetDate of script.mjs -/

/-- Milliseconds per hour. -/
def msPerHour : Nat := 3600000

/-- Milliseconds per day. -/
def msPerDay : Nat := 86400000

/-- The IST offset of 5.5 hours in milliseconds (istOffset in the source). -/
def istOffsetMs : Nat := 19800000

/-- Day of week of an epoch day number: 0 is Sunday, 6 is Saturday.
Day 0 (1970-01-01) was a Thursday, hence the shift by 4; this is what
Date.prototype.getUTCDay returns for a time inside that day. -/
def dayOfWeek (d : Nat) : Nat := (d + 4) % 7

/-- getTargetDate of script.mjs, at the level of epoch day numbers. The
input is the current instant in milliseconds since the epoch; the result is
the epoch day number of the chosen trading date. The source shifts the
instant by the IST offset, reads the UTC hour and day of the shifted
instant, steps back one calendar day when the hour is before 15, and then
rolls a Sunday back two days and a Saturday back one day. -/
def getTargetDate (nowMs : Nat) : Nat :=
  let istMs := nowMs + istOffsetMs
  let day := istMs / msPerDay
  let hour := istMs / msPerHour % 24
  let d1 := if hour < 15 then day - 1 else day
  if dayOfWeek d1 = 0 then d1 - 2
  else if dayOfWeek d1 = 6 then d1 - 1
  else d1

/-- The intermediate day reached after the cutoff branch of getTargetDate,
before the weekend adjustment. -/
def preWeekendDay (nowMs : Nat) : Nat :=
  let istMs := nowMs + istOffsetMs
  if istMs / msPerHour % 24 < 15 then istMs / msPerDay - 1 else istMs / msPerDay

/-- C2: for every reference timestamp (at least a few days past the epoch so
the calendar arithmetic cannot underflow), getTargetDate returns a weekday:
its day of week is neither Sunday (0) nor Saturday (6). Moreover the
embedding exhibits the claimed algorithm: the market-local hour before the
15:00 cutoff steps one calendar day back, and afterwards - in particular
when that step itself lands on a weekend - a Saturday is rolled back one
day and a Sunday two days to the preceding Friday. -/
theorem getTargetDate_weekday (nowMs : Nat) (h : 3 * msPerDay ≤ nowMs) :
    dayOfWeek (getTargetDate nowMs) ≠ 0 ∧
    dayOfWeek (getTargetDate nowMs) ≠ 6 ∧
    ((nowMs + istOffsetMs) / msPerHour % 24 < 15 →
      preWeekendDay nowMs = (nowMs + istOffsetMs) / msPerDay - 1) ∧
    (15 ≤ (nowMs + istOffsetMs) / msPerHour % 24 →
      preWeekendDay nowMs = (nowMs + istOffsetMs) / msPerDay) ∧
    (dayOfWeek (preWeekendDay nowMs) = 0 → getTargetDate nowMs = preWeekendDay nowMs - 2) ∧
    (dayOfWeek (preWeekendDay nowMs) = 6 → getTargetDate nowMs = preWeekendDay nowMs - 1) ∧
    (dayOfWeek (preWeekendDay nowMs) ≠ 0 → dayOfWeek (preWeekendDay nowMs) ≠ 6 →
      getTargetDate nowMs = preWeekendDay nowMs) := by
  simp only [getTargetDate, preWeekendDay, dayOfWeek, istOffsetMs, msPerDay, msPerHour] at *
  refine ⟨?_, ?_, ?_, ?_, ?_, ?_, ?_⟩ <;> split_ifs <;> omega

/-- Witness for C2 at a concrete timestamp (2025-10-11 in milliseconds). -/
theorem getTargetDate_weekday_witness :
    dayOfWeek (getTargetDate 1760140800000) ≠ 0 ∧ dayOfWeek (getTargetDate 1760140800000) ≠ 6 :=
  ⟨(getTargetDate_weekday 1760140800000 (by decide)).1,
   (getTargetDate_weekday 1760140800000 (by decide)).2.1⟩

/-! ## Canonical records and the two normalizers -/

/-- A RawRow: a parsed CSV row, a mapping from (whitespace-normalized)
column label to cell text. The csv-parse library is an external
collaborator, so the store functions below receive already-parsed rows. -/
abbrev Row : Type := List (String × String)

/-- Lookup of a column in a row, modelling the JavaScript property access
r[name]: the value when the column is present, undefined (none) otherwise. -/
def getF (r : Row) (k : String) : Option String :=
  (r.find? (fun p => p.1 == k)).map (fun p => p.2)

/-- CanonicalBondRecord: the unit of storage built by storeNSEData and
storeBSEData. Trade dates are epoch day numbers (the source passes the
YYYY-MM-DD rendering of the same day). Numeric fields hold a JsNum when the
source cell was truthy, none when the code stored null. -/
structure DbRecord where
  trade_date : Nat
  exchange : String
  security_code : Option String
  issuer_name : Option String
  coupon_rate : Option JsNum
  maturity_date : Option String
  ltp : Option JsNum
  turnover_rs_lacs : Option JsNum
  no_of_trades : Option JsNum
  bond_type : Option String
  face_value : Option JsNum
  credit_rating : Option String
  raw_data : Row
deriving DecidableEq, Repr

/-- The condition r[name] ? parseFloat(String(r[name]).replace(/,/g,"")) : null. -/
def floatField (v : Option String) : Option JsNum :=
  if truthy v then some (jsParseFloat (stripCommas (v.getD ""))) else none

/-- The condition r[name] ? parseInt(String(r[name]).replace(/,/g,""), 10) : null. -/
def intField (v : Option String) : Option JsNum :=
  if truthy v then some (jsParseInt (stripCommas (v.getD ""))) else none

/-- The condition r[name] || null on a string field. -/
def strFieldOrNull (v : Option String) : Option String :=
  if truthy v then v else none

/-- The record built for one NSE row by storeNSEData: the per-column
mapping of script.mjs lines 389-421, including the crore-to-lakh scaling
of the turnover by the factor 100 and the lone-dash handling that exists
only for the maturity date. -/
def nseDbRecord (tradeDate : Nat) (r : Row) : DbRecord :=
  let turnoverLakhs : Option JsNum :=
    if truthy (getF r "VALUE (₹ Crores)") then
      some ((jsParseFloat (stripCommas ((getF r "VALUE (₹ Crores)").getD ""))).mulQ 100)
    else none
  { trade_date := tradeDate
    exchange := "NSE"
    security_code := strFieldOrNull (getF r "SYMBOL")
    issuer_name := none
    coupon_rate := floatField (getF r "COUPON RATE")
    maturity_date :=
      if truthy (getF r "MATURITY DATE") = false ∨ getF r "MATURITY DATE" = some "-" then none
      else getF r "MATURITY DATE"
    ltp := floatField (getF r "LTP")
    turnover_rs_lacs := turnoverLakhs
    no_of_trades := intField (getF r "VOLUME (Shares)")
    bond_type := strFieldOrNull (getF r "BOND TYPE")
    face_value := floatField (getF r "FACE VALUE")
    credit_rating := strFieldOrNull (getF r "CREDIT RATING")
    raw_data := r }

/-- The record built for one BSE row by storeBSEData: the alias fallback
chains of script.mjs lines 463-511 (a || b || ... || null per canonical
field, first truthy match wins). -/
def bseDbRecord (tradeDate : Nat) (r : Row) : DbRecord :=
  let securityCode := firstTruthy [getF r "Scrip Name", getF r "Security Code", getF r "Scrip Code"]
  let closePrice := firstTruthy [getF r "Close Price", getF r "LTP"]
  let turnoverField := firstTruthy
    [getF r "Total Trade Turnover (Rs. Lakhs)", getF r "Turnover in Lakhs", getF r "Turnover (Rs Lacs)"]
  let volumeField := firstTruthy
    [getF r "Total Trade Volume", getF r "No.Of Trades", getF r "No Of Trades", getF r "No Of Trades"]
  { trade_date := tradeDate
    exchange := "BSE"
    security_code := securityCode
    issuer_name := none
    coupon_rate := none
    maturity_date := none
    ltp := if truthy closePrice then some (jsParseFloat (stripCommas (closePrice.getD ""))) else none
    turnover_rs_lacs :=
      if truthy turnoverField then some (jsParseFloat (stripCommas (turnoverField.getD ""))) else none
    no_of_trades :=
      if truthy volumeField then some (jsParseInt (stripCommas (volumeField.getD ""))) else none
    bond_type := none
    face_value := none
    credit_rating := none
    raw_data := r }

/-! ## SyncWriter: the storage calls of storeNSEData and storeBSEData -/

/-- One call to the storage collaborator. The daily store functions issue a
keyed delete then a batch insert; cleanupOldData issues a delete of all
records with trade_date strictly below a cutoff. -/
inductive StorageCall where
  | delete : Nat → String → StorageCall
  | deleteOlderThan : Nat → StorageCall
  | insert : List DbRecord → StorageCall

/-- Whether a stored record matches the (trade_date, exchange) delete key. -/
def keyMatch (td : Nat) (ex : String) (r : DbRecord) : Bool :=
  decide (r.trade_date = td) && decide (r.exchange = ex)

/-- Effect of one storage call on the stored record list. -/
def applyCall (store : List DbRecord) : StorageCall → List DbRecord
  | .delete td ex => store.filter (fun r => !keyMatch td ex r)
  | .deleteOlderThan cutoff => store.filter (fun r => !decide (r.trade_date < cutoff))
  | .insert recs => store ++ recs

/-- Effect of a sequence of storage calls, in order. -/
def applyCalls (store : List DbRecord) (calls : List StorageCall) : List DbRecord :=
  calls.foldl applyCall store

/-- storeNSEData of script.mjs on already-parsed rows: throws when no rows
remain, otherwise maps every row to its canonical record and issues the
delete of (tradeDate, NSE) followed by one insert of the whole batch,
returning the stored count. -/
def storeNSEData (records : List Row) (tradeDate : Nat) :
    Except String (List StorageCall × Nat) :=
  if records.isEmpty then .error "No NSE records to store"
  else
    let dbRecords := records.map (nseDbRecord tradeDate)
    .ok ([.delete tradeDate "NSE", .insert dbRecords], dbRecords.length)

/-- storeBSEData of script.mjs on already-parsed rows: throws when no rows
remain, otherwise maps every row through the alias table and issues the
delete of (tradeDate, BSE) followed by one insert of the whole batch. -/
def storeBSEData (records : List Row) (tradeDate : Nat) :
    Except String (List StorageCall × Nat) :=
  if records.isEmpty then .error "No BSE records to store"
  else
    let dbRecords := records.map (bseDbRecord tradeDate)
    .ok ([.delete tradeDate "BSE", .insert dbRecords], dbRecords.length)

/-- Filtering by a predicate that rejects everything previously kept
gives the empty list. -/
theorem filter_not_filter {α : Type} (p : α → Bool) (l : List α) :
    (l.filter (fun a => !p a)).filter p = [] := by
  induction l with
  | nil => rfl
  | cons a t ih =>
    by_cases h : p a = true <;> simp [List.filter, h, ih]

/-- Filtering by a predicate every element satisfies keeps the list. -/
theorem filter_all {α : Type} (p : α → Bool) (l : List α) (h : ∀ a ∈ l, p a = true) :
    l.filter p = l := by
  induction l with
  | nil => rfl
  | cons a t ih =>
    simp [List.filter, h a (by simp), ih (fun b hb => h b (by simp [hb]))]

/-- Every record built by nseDbRecord matches its own delete key. -/
theorem keyMatch_nse (td : Nat) (r : Row) : keyMatch td "NSE" (nseDbRecord td r) = true := by
  simp [keyMatch, nseDbRecord]

/-- Every record built by bseDbRecord matches its own delete key. -/
theorem keyMatch_bse (td : Nat) (r : Row) : keyMatch td "BSE" (bseDbRecord td r) = true := by
  simp [keyMatch, bseDbRecord]

/-- Running a keyed delete followed by an insert of a batch whose members
all match the key leaves exactly that batch under the key, whatever was
stored before. -/
theorem filter_key_replace (td : Nat) (ex : String) (store batch : List DbRecord)
    (hb : ∀ r ∈ batch, keyMatch td ex r = true) :
    (applyCalls store [.delete td ex, .insert batch]).filter (keyMatch td ex) = batch := by
  have : applyCalls store [.delete td ex, .insert batch] =
      (store.filter (fun r => !keyMatch td ex r)) ++ batch := rfl
  rw [this, List.filter_append, filter_not_filter, filter_all _ _ hb, List.nil_append]

/-- C1: for every trade date and nonempty parsed batch, each store function
issues exactly the call sequence delete-of-(tradeDate, exchange) then one
insert of the full normalized batch - the delete strictly before any
insert, and no partial batching - and replaying those calls against any
prior stored state leaves, for that (trade_date, exchange) key, exactly
the new batch: no duplicate accumulation across reruns. -/
theorem syncWriter_replace (td : Nat) (rows : List Row) (h : rows ≠ [])
    (store : List DbRecord) :
    (storeNSEData rows td =
      .ok ([.delete td "NSE", .insert (rows.map (nseDbRecord td))],
        (rows.map (nseDbRecord td)).length)) ∧
    ((applyCalls store
        [.delete td "NSE", .insert (rows.map (nseDbRecord td))]).filter (keyMatch td "NSE")
      = rows.map (nseDbRecord td)) ∧
    (storeBSEData rows td =
      .ok ([.delete td "BSE", .insert (rows.map (bseDbRecord td))],
        (rows.map (bseDbRecord td)).length)) ∧
    ((applyCalls store
        [.delete td "BSE", .insert (rows.map (bseDbRecord td))]).filter (keyMatch td "BSE")
      = rows.map (bseDbRecord td)) := by
  have hne : rows.isEmpty = false := by
    cases rows with
    | nil => exact absurd rfl h
    | cons a l => rfl
  refine ⟨?_, ?_, ?_, ?_⟩
  · simp [storeNSEData, hne]
  · refine filter_key_replace td "NSE" store _ ?_
    intro r hr
    obtain ⟨row, _, rfl⟩ := List.mem_map.1 hr
    exact keyMatch_nse td row
  · simp [storeBSEData, hne]
  · refine filter_key_replace td "BSE" store _ ?_
    intro r hr
    obtain ⟨row, _, rfl⟩ := List.mem_map.1 hr
    exact keyMatch_bse td row

/-- Witness for C1: a one-row batch on day 1 against an empty store. -/
theorem syncWriter_replace_witness :
    storeNSEData [[("SYMBOL", "AAA")]] 1 =
      .ok ([.delete 1 "NSE", .insert ([[("SYMBOL", "AAA")]].map (nseDbRecord 1))],
        ([[("SYMBOL", "AAA")]].map (nseDbRecord 1)).length) :=
  (syncWriter_replace 1 [[("SYMBOL", "AAA")]] (by simp) []).1

/-! ## Numeric-field tolerance and the alias table -/

/-- A nonempty string is truthy. -/
theorem truthy_of_ne (v : String) (h : v ≠ "") : truthy (some v) = true := by
  obtain ⟨cs⟩ := v
  cases cs with
  | nil => exact absurd rfl h
  | cons c l => rfl

/-- Evaluation of the comma-stripped sample input of the spec. -/
theorem jsParseFloat_sample : jsParseFloat "1234.50" = JsNum.num 1234.5 := by
  have h1 : digitsToNat ('1' :: '2' :: '3' :: '4' :: []) = 1234 := by decide
  have h2 : digitsToNat ('5' :: '0' :: []) = 50 := by decide
  show JsNum.num ((digitsToNat ('1' :: '2' :: '3' :: '4' :: []) : ℚ)
      + (digitsToNat ('5' :: '0' :: []) : ℚ) / (10 ^ 2 : ℚ)) = JsNum.num 1234.5
  rw [h1, h2]
  norm_num [JsNum.num.injEq]

/-- Evaluation of a comma-stripped integer sample input. -/
theorem jsParseInt_sample : jsParseInt "1234" = JsNum.num 1234 := by
  have h1 : digitsToNat ('1' :: '2' :: '3' :: '4' :: []) = 1234 := by decide
  show JsNum.num ((digitsToNat ('1' :: '2' :: '3' :: '4' :: []) : ℚ)) = JsNum.num 1234
  rw [h1]
  norm_num

/-- C6 counterexample: the claim says a lone dash placeholder maps to
null for every numeric canonical field, but the code guards only the
maturity date against the dash: for the coupon rate (and the other numeric
fields, which share the same pattern) the truthy dash reaches parseFloat
and the stored value is NaN, not null. -/
theorem numeric_dash_is_nan_counterexample :
    (nseDbRecord 0 [("COUPON RATE", "-")]).coupon_rate = some JsNum.nan ∧
    some JsNum.nan ≠ (none : Option JsNum) := by
  exact ⟨rfl, by simp⟩

/-- C6 amended: for every numeric canonical field, an empty-string input
and an absent column map to null, and thousands separators are stripped
before conversion so that the input 1,234.50 yields 1234.50 (scaled by 100
for the NSE turnover, which the code converts from crores to lakhs); but a
lone dash placeholder input yields NaN rather than null - only the
non-numeric maturity_date field treats the dash as absent. -/
theorem numeric_field_tolerance (td : Nat) :
    ((nseDbRecord td []).coupon_rate = none) ∧
    ((nseDbRecord td []).ltp = none) ∧
    ((nseDbRecord td []).turnover_rs_lacs = none) ∧
    ((nseDbRecord td []).no_of_trades = none) ∧
    ((nseDbRecord td []).face_value = none) ∧
    ((nseDbRecord td [("COUPON RATE", "")]).coupon_rate = none) ∧
    ((nseDbRecord td [("LTP", "")]).ltp = none) ∧
    ((nseDbRecord td [("VALUE (₹ Crores)", "")]).turnover_rs_lacs = none) ∧
    ((nseDbRecord td [("VOLUME (Shares)", "")]).no_of_trades = none) ∧
    ((nseDbRecord td [("FACE VALUE", "")]).face_value = none) ∧
    ((nseDbRecord td [("COUPON RATE", "-")]).coupon_rate = some JsNum.nan) ∧
    ((nseDbRecord td [("LTP", "-")]).ltp = some JsNum.nan) ∧
    ((nseDbRecord td [("VALUE (₹ Crores)", "-")]).turnover_rs_lacs = some JsNum.nan) ∧
    ((nseDbRecord td [("VOLUME (Shares)", "-")]).no_of_trades = some JsNum.nan) ∧
    ((nseDbRecord td [("FACE VALUE", "-")]).face_value = some JsNum.nan) ∧
    ((nseDbRecord td [("MATURITY DATE", "-")]).maturity_date = none) ∧
    ((nseDbRecord td [("COUPON RATE", "1,234.50")]).coupon_rate = some (JsNum.num 1234.5)) ∧
    ((nseDbRecord td [("LTP", "1,234.50")]).ltp = some (JsNum.num 1234.5)) ∧
    ((nseDbRecord td [("FACE VALUE", "1,234.50")]).face_value = some (JsNum.num 1234.5)) ∧
    ((nseDbRecord td [("VALUE (₹ Crores)", "1,234.50")]).turnover_rs_lacs
      = some (JsNum.num 123450)) ∧
    ((nseDbRecord td []).maturity_date = none) ∧
    ((bseDbRecord td []).ltp = none) ∧
    ((bseDbRecord td []).turnover_rs_lacs = none) ∧
    ((bseDbRecord td []).no_of_trades = none) ∧
    ((bseDbRecord td [("Close Price", "")]).ltp = none) ∧
    ((bseDbRecord td [("Close Price", "-")]).ltp = some JsNum.nan) ∧
    ((bseDbRecord td [("Close Price", "1,234.50")]).ltp = some (JsNum.num 1234.5)) ∧
    ((bseDbRecord td [("Total Trade Volume", "1,234")]).no_of_trades = some (JsNum.num 1234)) := by
  have hs : stripCommas "1,234.50" = "1234.50" := by decide
  have hs2 : stripCommas "1,234" = "1234" := by decide
  refine ⟨rfl, rfl, rfl, rfl, rfl, rfl, rfl, rfl, rfl, rfl, rfl, rfl, rfl, rfl, rfl, rfl,
    ?_, ?_, ?_, ?_, rfl, rfl, rfl, rfl, rfl, rfl, ?_, ?_⟩
  · show some (jsParseFloat (stripCommas "1,234.50")) = some (JsNum.num 1234.5)
    rw [hs, jsParseFloat_sample]
  · show some (jsParseFloat (stripCommas "1,234.50")) = some (JsNum.num 1234.5)
    rw [hs, jsParseFloat_sample]
  · show some (jsParseFloat (stripCommas "1,234.50")) = some (JsNum.num 1234.5)
    rw [hs, jsParseFloat_sample]
  · show some ((jsParseFloat (stripCommas "1,234.50")).mulQ 100) = some (JsNum.num 123450)
    rw [hs, jsParseFloat_sample]
    show some (JsNum.num (1234.5 * 100)) = some (JsNum.num 123450)
    norm_num [Option.some.injEq, JsNum.num.injEq]
  · show some (jsParseFloat (stripCommas "1,234.50")) = some (JsNum.num 1234.5)
    rw [hs, jsParseFloat_sample]
  · show some (jsParseInt (stripCommas "1,234")) = some (JsNum.num 1234)
    rw [hs2, jsParseInt_sample]

/-- An absent field is falsy. -/
theorem truthy_none : truthy none = false := rfl

/-- C7: for every nonempty value, each canonical field of the BSE (direct
export) normalizer receives the same canonical value whichever of its known
alias column names carries it, and when several aliases are simultaneously
present the first match in the fixed priority order of the fallback chain
wins. -/
theorem bse_alias_roundtrip (td : Nat) (v w u : String)
    (hv : v ≠ "") (hw : w ≠ "") (hu : u ≠ "") :
    ((bseDbRecord td [("Scrip Name", v)]).security_code = some v) ∧
    ((bseDbRecord td [("Security Code", v)]).security_code = some v) ∧
    ((bseDbRecord td [("Scrip Code", v)]).security_code = some v) ∧
    ((bseDbRecord td [("Close Price", v)]).ltp = some (jsParseFloat (stripCommas v))) ∧
    ((bseDbRecord td [("LTP", v)]).ltp = some (jsParseFloat (stripCommas v))) ∧
    ((bseDbRecord td [("Total Trade Turnover (Rs. Lakhs)", v)]).turnover_rs_lacs
      = some (jsParseFloat (stripCommas v))) ∧
    ((bseDbRecord td [("Turnover in Lakhs", v)]).turnover_rs_lacs
      = some (jsParseFloat (stripCommas v))) ∧
    ((bseDbRecord td [("Turnover (Rs Lacs)", v)]).turnover_rs_lacs
      = some (jsParseFloat (stripCommas v))) ∧
    ((bseDbRecord td [("Total Trade Volume", v)]).no_of_trades
      = some (jsParseInt (stripCommas v))) ∧
    ((bseDbRecord td [("No.Of Trades", v)]).no_of_trades = some (jsParseInt (stripCommas v))) ∧
    ((bseDbRecord td [("No Of Trades", v)]).no_of_trades = some (jsParseInt (stripCommas v))) ∧
    ((bseDbRecord td [("Security Code", w), ("Scrip Name", v)]).security_code = some v) ∧
    ((bseDbRecord td [("Scrip Code", u), ("Security Code", w)]).security_code = some w) ∧
    ((bseDbRecord td [("LTP", w), ("Close Price", v)]).ltp
      = some (jsParseFloat (stripCommas v))) ∧
    ((bseDbRecord td
        [("Turnover in Lakhs", w), ("Total Trade Turnover (Rs. Lakhs)", v)]).turnover_rs_lacs
      = some (jsParseFloat (stripCommas v))) ∧
    ((bseDbRecord td [("No.Of Trades", w), ("Total Trade Volume", v)]).no_of_trades
      = some (jsParseInt (stripCommas v))) := by
  have hv1 := truthy_of_ne v hv
  have hw1 := truthy_of_ne w hw
  have hu1 := truthy_of_ne u hu
  simp [bseDbRecord, getF, List.find?, firstTruthy, hv1, hw1, hu1, truthy_none]

/-- Witness for C7 at concrete values. -/
theorem bse_alias_roundtrip_witness :
    (bseDbRecord 3 [("Scrip Name", "ABC")]).security_code = some "ABC" :=
  (bse_alias_roundtrip 3 "ABC" "DEF" "GHI" (by decide) (by decide) (by decide)).1

/-- C8: the NSE normalizer rescales the turnover, natively expressed in
crores, into the canonical lakh unit by the fixed factor 100: whenever the
cell parses to a finite value q, the emitted turnover_rs_lacs is q * 100. -/
theorem nse_turnover_conversion (td : Nat) (v : String) (q : ℚ) (hv : v ≠ "")
    (hq : jsParseFloat (stripCommas v) = JsNum.num q) :
    (nseDbRecord td [("VALUE (₹ Crores)", v)]).turnover_rs_lacs
      = some (JsNum.num (q * 100)) := by
  have hv1 := truthy_of_ne v hv
  simp [nseDbRecord, getF, List.find?, hv1, hq, JsNum.mulQ]

/-- Evaluation of the spec sample turnover input. -/
theorem jsParseFloat_ten : jsParseFloat (stripCommas "10") = JsNum.num 10 := by
  have h1 : digitsToNat ('1' :: '0' :: []) = 10 := by decide
  show JsNum.num ((digitsToNat ('1' :: '0' :: []) : ℚ)
      + (digitsToNat ([] : List Char) : ℚ) / (10 ^ 0 : ℚ)) = JsNum.num 10
  rw [h1]
  norm_num [digitsToNat]

/-- Witness for C8: a native turnover input of 10 crores is stored as
exactly 1000 lakhs. -/
theorem nse_turnover_conversion_witness :
    (nseDbRecord 0 [("VALUE (₹ Crores)", "10")]).turnover_rs_lacs
      = some (JsNum.num 1000) := by
  have h := nse_turnover_conversion 0 "10" 10 (by decide) jsParseFloat_ten
  norm_num at h
  exact h

/-! ## FormSubmitter and ResponseClassifier: fetchBSEData and fetchBSECSV -/

/-- The hidden anti-forgery fields extracted from a page by
extractFormFields. HTML parsing is an external collaborator (the
node-html-parser library), so the fetch models below take the extraction
function as an oracle argument. -/
structure FormFields where
  viewstate : String
  viewstateGenerator : String
  eventValidation : String

/-- The three responses of one BSE session-replay attempt: the initial GET
of the search page, the search-submission POST, and the export (download)
POST. -/
structure BseTranscript where
  getStatus : Nat
  getBody : String
  submitStatus : Nat
  submitBody : String
  downloadStatus : Nat
  downloadBody : String

/-- The three requests a session-replay attempt can issue, in protocol
order. -/
inductive BseRequest where
  | get : BseRequest
  | submitSearch : BseRequest
  | download : BseRequest
deriving DecidableEq, Repr

/-- The results-container marker checked on the search response. -/
def bseMarker : String := "ContentPlaceHolder1_divCT1"

/-- The export-body classification of fetchBSEData (script.mjs lines
365-378): the trimmed body starting like an HTML document means there is no
downloadable data and the function throws; otherwise the original untrimmed
body is returned as the data payload. -/
def classifyDownloadBody (raw : String) : Except String String :=
  let body := jsTrim raw
  if strStartsWith body "<!" || strStartsWith body "<html" || strStartsWith body "<" then
    .error "No bond data found in BSE response (HTML returned instead of CSV)"
  else .ok raw

/-- The same classification in the backfill variant (part_000 lines
206-217), where an HTML body makes fetchBSECSV return null instead of
throwing. -/
def classifyDownloadBodyOpt (raw : String) : Option String :=
  let body := jsTrim raw
  if strStartsWith body "<!" || strStartsWith body "<html" || strStartsWith body "<" then
    none
  else some raw

/-- fetchBSEData of script.mjs over a response transcript: the issued
request sequence paired with the outcome. Every anomaly, including the
missing results-container marker after the search submission and an HTML
export body, is thrown as an error. -/
def fetchBSEData (extract : String → FormFields) (t : BseTranscript) :
    List BseRequest × Except String String :=
  if t.getStatus ≠ 200 then
    ([.get], .error ("GET returned status " ++ toString t.getStatus))
  else
    let f1 := extract t.getBody
    if f1.viewstate = "" ∨ f1.viewstateGenerator = "" ∨ f1.eventValidation = "" then
      ([.get], .error "Failed to extract viewstate parameters")
    else if t.submitStatus ≠ 200 then
      ([.get, .submitSearch],
        .error ("BSE submit POST returned status code: " ++ toString t.submitStatus))
    else if strContains t.submitBody bseMarker = false then
      ([.get, .submitSearch], .error "No bond data found in BSE response")
    else
      let f2 := extract t.submitBody
      if f2.viewstate = "" ∨ f2.viewstateGenerator = "" ∨ f2.eventValidation = "" then
        ([.get, .submitSearch], .error "Failed to extract viewstate from search response")
      else if t.downloadStatus ≠ 200 then
        ([.get, .submitSearch, .download],
          .error ("BSE download POST returned status code: " ++ toString t.downloadStatus))
      else
        ([.get, .submitSearch, .download], classifyDownloadBody t.downloadBody)

/-- fetchBSECSV of the backfill script over a response transcript: the
issued request sequence paired with the fetched CSV, where every anomaly -
including the missing results-container marker - yields null (a benign
no-data outcome), never an exception. The backfill variant checks only the
viewstate field of the extracted form fields. -/
def fetchBSECSV (extract : String → FormFields) (t : BseTranscript) :
    List BseRequest × Option String :=
  if t.getStatus ≠ 200 then ([.get], none)
  else
    let f1 := extract t.getBody
    if f1.viewstate = "" then ([.get], none)
    else if t.submitStatus ≠ 200 then ([.get, .submitSearch], none)
    else if strContains t.submitBody bseMarker = false then ([.get, .submitSearch], none)
    else
      let f2 := extract t.submitBody
      if f2.viewstate = "" then ([.get, .submitSearch], none)
      else if t.downloadStatus ≠ 200 then ([.get, .submitSearch, .download], none)
      else ([.get, .submitSearch, .download], classifyDownloadBodyOpt t.downloadBody)

/-! ## The daily run (main of script.mjs) and the backfill run (main of the
backfill script) -/

/-- One entry of the results summary of the daily run (results.nse and
results.bse in main). -/
structure SourceResult where
  success : Bool
  count : Nat
  err : Option String
deriving DecidableEq, Repr

/-- One try block of main: a fetch outcome (parsed rows, or the message of
a thrown error) piped into a store function; any thrown error is caught
locally and recorded in the summary entry, and the issued storage calls are
returned. -/
def processSource (fetched : Except String (List Row))
    (store : List Row → Nat → Except String (List StorageCall × Nat))
    (td : Nat) : SourceResult × List StorageCall :=
  match fetched with
  | .error e => (⟨false, 0, some e⟩, [])
  | .ok rows =>
    match store rows td with
    | .error e => (⟨false, 0, some e⟩, [])
    | .ok (calls, n) => (⟨true, n, none⟩, calls)

/-- cleanupOldData of script.mjs: deletes every stored record whose trade
date is strictly below the cutoff of 90 days before today, over every
exchange; on a storage error it only logs, deleting nothing and reporting
count 0. Returns the deleted count and the remaining store. -/
def cleanupOldData (today : Nat) (fails : Bool) (store : List DbRecord) :
    Nat × List DbRecord :=
  let cutoff := today - 90
  if fails then (0, store)
  else ((store.filter (fun r => decide (r.trade_date < cutoff))).length,
    store.filter (fun r => !decide (r.trade_date < cutoff)))

/-- The external outcomes one daily run is exposed to: the NSE fetch, the
BSE fetch (each either parsed rows or a thrown error message), and whether
the cleanup delete fails. -/
structure DailyEnv where
  nseFetch : Except String (List Row)
  bseFetch : Except String (List Row)
  cleanupFails : Bool

/-- The observable outcome of one daily run. -/
structure DailyOutcome where
  nse : SourceResult
  bse : SourceResult
  cleanupCount : Nat
  finalStore : List DbRecord
  exitFailure : Bool
deriving DecidableEq, Repr

/-- main of script.mjs: process NSE inside its own try block, then BSE
inside its own, then run the cleanup (whose own failure is only logged),
and exit with a failure code exactly when both sources failed. -/
def mainDaily (env : DailyEnv) (td today : Nat) (store0 : List DbRecord) : DailyOutcome :=
  let nseP := processSource env.nseFetch storeNSEData td
  let bseP := processSource env.bseFetch storeBSEData td
  let store1 := applyCalls store0 (nseP.2 ++ bseP.2)
  let clean := cleanupOldData today env.cleanupFails store1
  { nse := nseP.1
    bse := bseP.1
    cleanupCount := clean.1
    finalStore := clean.2
    exitFailure := !nseP.1.success && !bseP.1.success }

/-- What one date of the backfill loop is exposed to: a benign null fetch
(no data), a fetched-and-parsed row list together with a possible storage
insert error, or a thrown exception (transport or parse failure). -/
inductive DateInput where
  | noData : DateInput
  | rows : List Row → Option String → DateInput
  | hardError : String → DateInput

/-- The counters the backfill loop accumulates. -/
structure BackfillState where
  processed : Nat
  skipped : Nat
  total : Nat
deriving DecidableEq, Repr

/-- Whether a date input makes the backfill loop abort: a thrown exception
always does, and a storage insert error does when there are rows to insert
(empty row lists are skipped before any storage call). -/
def isHardFailure : DateInput → Bool
  | .hardError _ => true
  | .rows rs ie => !rs.isEmpty && ie.isSome
  | .noData => false

/-- main of the backfill script: process the queued dates in order. A null
fetch or an empty parse is counted as skipped and the loop continues; rows
are stored and counted; a thrown error or a storage insert error stops the
whole run immediately (the source calls process.exit(1)), leaving every
remaining date unprocessed. -/
def mainBackfill : List (Nat × DateInput) → BackfillState → Except String BackfillState
  | [], st => .ok st
  | (_, inp) :: rest, st =>
    match inp with
    | .hardError e => .error e
    | .noData => mainBackfill rest { st with skipped := st.skipped + 1 }
    | .rows rs ie =>
      if rs.isEmpty then mainBackfill rest { st with skipped := st.skipped + 1 }
      else
        match ie with
        | some e => .error ("DB insert failed: " ++ e)
        | none =>
          mainBackfill rest
            { st with processed := st.processed + 1, total := st.total + rs.length }

/-- A backfill queue whose processed prefix contains no hard failure
reaches a hard-failing date and aborts with its error, whatever follows. -/
theorem mainBackfill_append_error (pre : List (Nat × DateInput))
    (h : ∀ p ∈ pre, isHardFailure p.2 = false) (d : Nat) (e : String)
    (rest : List (Nat × DateInput)) (st : BackfillState) :
    mainBackfill (pre ++ (d, .hardError e) :: rest) st = .error e := by
  induction pre generalizing st with
  | nil => rfl
  | cons p l ih =>
    obtain ⟨td, inp⟩ := p
    have h1 := h (td, inp) (by simp)
    have h2 : ∀ q ∈ l, isHardFailure q.2 = false := fun q hq => h q (by simp [hq])
    cases inp with
    | hardError m => simp [isHardFailure] at h1
    | noData => simpa [mainBackfill] using ih h2 _
    | rows rs ie =>
      by_cases hrs : rs.isEmpty = true
      · simpa [mainBackfill, hrs] using ih h2 _
      · cases ie with
        | some m => simp [isHardFailure, hrs] at h1
        | none => simpa [mainBackfill, hrs] using ih h2 _

/-- C3: in the daily run a hard failure of one source is caught locally and
recorded in the results summary while the other source is still processed
with an outcome independent of the failure; in the backfill run, a hard
failure on any single date (after an error-free prefix) aborts the whole
remaining queue: the run ends with that error, and the dates after the
failing one never influence the outcome. -/
theorem error_propagation_policy (e : String) (env : DailyEnv) (td today : Nat)
    (s0 : List DbRecord) (pre rest1 rest2 : List (Nat × DateInput)) (d : Nat)
    (st : BackfillState) (hpre : ∀ p ∈ pre, isHardFailure p.2 = false) :
    ((mainDaily { env with nseFetch := .error e } td today s0).nse = ⟨false, 0, some e⟩) ∧
    ((mainDaily { env with nseFetch := .error e } td today s0).bse
      = (mainDaily env td today s0).bse) ∧
    ((mainDaily { env with bseFetch := .error e } td today s0).bse = ⟨false, 0, some e⟩) ∧
    ((mainDaily { env with bseFetch := .error e } td today s0).nse
      = (mainDaily env td today s0).nse) ∧
    (mainBackfill (pre ++ (d, .hardError e) :: rest1) st = .error e) ∧
    (mainBackfill (pre ++ (d, .hardError e) :: rest1) st
      = mainBackfill (pre ++ (d, .hardError e) :: rest2) st) := by
  refine ⟨rfl, rfl, rfl, rfl, mainBackfill_append_error pre hpre d e rest1 st, ?_⟩
  rw [mainBackfill_append_error pre hpre d e rest1 st,
    mainBackfill_append_error pre hpre d e rest2 st]

/-- Witness for C3: a one-date error-free prefix before the failing date. -/
theorem error_propagation_policy_witness :
    mainBackfill ([(0, .noData)] ++ (1, .hardError "boom") :: [(2, .noData)]) ⟨0, 0, 0⟩
      = .error "boom" :=
  (error_propagation_policy "boom" ⟨.ok [], .ok [], false⟩ 0 100 [] [(0, .noData)]
    [(2, .noData)] [] 1 ⟨0, 0, 0⟩ (by simp [isHardFailure])).2.2.2.2.1

/-- A transcript whose search response lacks the results-container marker. -/
def markerlessTranscript : BseTranscript :=
  { getStatus := 200
    getBody := "search page"
    submitStatus := 200
    submitBody := "<html><body>no results container here</body></html>"
    downloadStatus := 200
    downloadBody := "unused" }

/-- An extraction oracle that always finds nonempty hidden fields. -/
def constExtract : String → FormFields :=
  fun _ => { viewstate := "vs1", viewstateGenerator := "gen1", eventValidation := "ev1" }

/-- C4 counterexample: on a search response without the results-container
marker, the daily fetch does not produce a benign no-data outcome: it
throws, and the daily run records that error as a failure for the source -
contradicting the claim that no failure is recorded. -/
theorem marker_missing_counterexample :
    (fetchBSEData constExtract markerlessTranscript
      = ([.get, .submitSearch], .error "No bond data found in BSE response")) ∧
    ((processSource (.error "No bond data found in BSE response") storeBSEData 0).1
      = ⟨false, 0, some "No bond data found in BSE response"⟩) :=
  ⟨rfl, rfl⟩

/-- C4 amended: when the search-submission response lacks the
results-container marker, neither variant proceeds to the export request;
the backfill variant short-circuits the date with a benign no-data null,
but the daily variant throws a no-data error which the run catches and
records as a failure for that source and date. -/
theorem marker_missing_behavior (extract : String → FormFields) (t : BseTranscript)
    (hget : t.getStatus = 200)
    (h1 : (extract t.getBody).viewstate ≠ "")
    (h2 : (extract t.getBody).viewstateGenerator ≠ "")
    (h3 : (extract t.getBody).eventValidation ≠ "")
    (hsub : t.submitStatus = 200)
    (hmark : strContains t.submitBody bseMarker = false) :
    (fetchBSEData extract t
      = ([.get, .submitSearch], .error "No bond data found in BSE response")) ∧
    (fetchBSECSV extract t = ([.get, .submitSearch], none)) ∧
    (BseRequest.download ∉ (fetchBSEData extract t).1) ∧
    (BseRequest.download ∉ (fetchBSECSV extract t).1) ∧
    ((processSource (.error "No bond data found in BSE response") storeBSEData 0).1
      = ⟨false, 0, some "No bond data found in BSE response"⟩) := by
  have hd : fetchBSEData extract t
      = ([.get, .submitSearch], .error "No bond data found in BSE response") := by
    simp [fetchBSEData, hget, hsub, hmark, h1, h2, h3]
  have hc : fetchBSECSV extract t = ([.get, .submitSearch], none) := by
    simp [fetchBSECSV, hget, hsub, hmark, h1]
  refine ⟨hd, hc, ?_, ?_, rfl⟩
  · rw [hd]; decide
  · rw [hc]; decide

/-- Witness for C4 at the concrete markerless transcript. -/
theorem marker_missing_behavior_witness :
    fetchBSECSV constExtract markerlessTranscript = ([.get, .submitSearch], none) :=
  (marker_missing_behavior constExtract markerlessTranscript rfl (by decide) (by decide)
    (by decide) rfl (by decide)).2.1

/-- C5 counterexample: an export body that is an HTML document is not a
benign no-data outcome in the daily run: the classification throws, and the
run records the error as a failure for the source on that date. -/
theorem html_body_counterexample :
    (classifyDownloadBody "<!DOCTYPE html><html><body>No data</body></html>"
      = .error "No bond data found in BSE response (HTML returned instead of CSV)") ∧
    ((processSource
        (.error "No bond data found in BSE response (HTML returned instead of CSV)")
        storeBSEData 0).1
      = ⟨false, 0, some "No bond data found in BSE response (HTML returned instead of CSV)"⟩) :=
  ⟨rfl, rfl⟩

/-- C5 amended: a trimmed export body starting with an HTML document marker
makes the daily classification throw an HTML-instead-of-CSV error, recorded
by the run as a failure for that source and date (only the backfill variant
maps the same condition to a benign null); a non-HTML body - in particular
one led by a byte-order marker, which the parse stage strips before
parsing - passes through as the data payload; and an empty body does not
crash the classifier, which returns it as a payload. -/
theorem html_body_classification (s t : String) (l : List Char)
    (hs : (strStartsWith (jsTrim s) "<!" || strStartsWith (jsTrim s) "<html"
      || strStartsWith (jsTrim s) "<") = true)
    (ht : (strStartsWith (jsTrim t) "<!" || strStartsWith (jsTrim t) "<html"
      || strStartsWith (jsTrim t) "<") = false) :
    (classifyDownloadBody s
      = .error "No bond data found in BSE response (HTML returned instead of CSV)") ∧
    (classifyDownloadBodyOpt s = none) ∧
    ((processSource
        (.error "No bond data found in BSE response (HTML returned instead of CSV)")
        storeBSEData 0).1.success = false) ∧
    (classifyDownloadBody t = .ok t) ∧
    (classifyDownloadBodyOpt t = some t) ∧
    (stripBOM (String.mk ('\uFEFF' :: l)) = String.mk l) ∧
    (classifyDownloadBody "" = .ok "") ∧
    (classifyDownloadBodyOpt "" = some "") := by
  refine ⟨?_, ?_, rfl, ?_, ?_, rfl, rfl, rfl⟩
  · simp [classifyDownloadBody, hs]
  · simp [classifyDownloadBodyOpt, hs]
  · simp [classifyDownloadBody, ht]
  · simp [classifyDownloadBodyOpt, ht]

/-- Witness for C5: an HTML doctype body and a BOM-led CSV body. -/
theorem html_body_classification_witness :
    classifyDownloadBodyOpt (String.mk ('\uFEFF' :: "Scrip Name,Close Price".data))
      = some (String.mk ('\uFEFF' :: "Scrip Name,Close Price".data)) :=
  (html_body_classification "<!DOCTYPE html>"
    (String.mk ('\uFEFF' :: "Scrip Name,Close Price".data)) ('a' :: [])
    (by decide) (by decide)).2.2.2.2.1

/-- C9 counterexample: in the backfill variant a payload that parses to
zero data rows is not treated as a hard failure: the loop counts the date
as skipped and finishes successfully, exactly like the benign no-data
case - contradicting the claim that every caller records it as a failure. -/
theorem empty_parse_counterexample :
    mainBackfill [(0, .rows [] none)] ⟨0, 0, 0⟩ = .ok ⟨0, 1, 0⟩ :=
  rfl

/-- C9 amended: in the daily run, a payload parsing to zero rows makes the
store step throw a no-records error that the run records as a failure for
that source and date, with an error text distinct from the no-data message
of the fetch stage; in the backfill run the same condition is a benign skip
that leaves the loop running. -/
theorem empty_parse_behavior (td d : Nat) (rest : List (Nat × DateInput))
    (st : BackfillState) :
    (storeNSEData [] td = .error "No NSE records to store") ∧
    (storeBSEData [] td = .error "No BSE records to store") ∧
    ((processSource (.ok []) storeNSEData td).1
      = ⟨false, 0, some "No NSE records to store"⟩) ∧
    ((processSource (.ok []) storeBSEData td).1
      = ⟨false, 0, some "No BSE records to store"⟩) ∧
    ("No BSE records to store" ≠ "No bond data found in BSE response") ∧
    (mainBackfill ((d, .rows [] none) :: rest) st
      = mainBackfill rest { st with skipped := st.skipped + 1 }) := by
  exact ⟨rfl, rfl, rfl, rfl, by decide, rfl⟩

/-- C10: cleanupOldData deletes exactly the stored records whose trade date
is strictly below 90 days before the run date, whatever their exchange; a
cleanup storage failure deletes nothing and reports zero; and the cleanup
outcome has no influence on the recorded source results or on the process
exit status, which depends only on the two sources. The daily run applies
the cleanup to the store as left by both source syncs. -/
theorem cleanup_retention (today : Nat) (h90 : 90 ≤ today) (store : List DbRecord)
    (r : DbRecord) (env : DailyEnv) (td : Nat) (s0 : List DbRecord) :
    (r ∈ (cleanupOldData today false store).2 ↔
      r ∈ store ∧ ¬ r.trade_date < today - 90) ∧
    (cleanupOldData today true store = (0, store)) ∧
    ((mainDaily { env with cleanupFails := true } td today s0).exitFailure
      = (mainDaily { env with cleanupFails := false } td today s0).exitFailure) ∧
    ((mainDaily { env with cleanupFails := true } td today s0).nse
      = (mainDaily { env with cleanupFails := false } td today s0).nse) ∧
    ((mainDaily { env with cleanupFails := true } td today s0).bse
      = (mainDaily { env with cleanupFails := false } td today s0).bse) ∧
    ((mainDaily env td today s0).finalStore
      = (cleanupOldData today env.cleanupFails
          (applyCalls s0 ((processSource env.nseFetch storeNSEData td).2
            ++ (processSource env.bseFetch storeBSEData td).2))).2) := by
  refine ⟨?_, rfl, rfl, rfl, rfl, rfl⟩
  simp [cleanupOldData, List.mem_filter]

/-- Witness for C10: a two-record store with one stale record on day 5 and
one fresh record on day 95, cleaned up on day 100. -/
theorem cleanup_retention_witness :
    nseDbRecord 95 [] ∈ (cleanupOldData 100 false [nseDbRecord 5 [], nseDbRecord 95 []]).2 ∧
    ¬ nseDbRecord 5 [] ∈ (cleanupOldData 100 false [nseDbRecord 5 [], nseDbRecord 95 []]).2 := by
  constructor
  · exact (cleanup_retention 100 (by decide) [nseDbRecord 5 [], nseDbRecord 95 []]
      (nseDbRecord 95 []) ⟨.ok [], .ok [], false⟩ 0 []).1.2 ⟨by simp, by decide⟩
  · intro hmem
    have := (cleanup_retention 100 (by decide) [nseDbRecord 5 [], nseDbRecord 95 []]
      (nseDbRecord 5 []) ⟨.ok [], .ok [], false⟩ 0 []).1.1 hmem
    exact this.2 (by decide)
